import Mathlib

/-!
Shallow embedding of `googlecloudsdk/core/metrics.py` (the telemetry
collector of the Cloud SDK).  Mutable class state (`_MetricsCollector`'s
`_disabled_cache` and `_instance`, the client-id file) is passed
explicitly as a `GlobalState`; clock reads (`time.time()` converted by
`_GetTimeMillis`) are supplied as integer millisecond arguments at the
call sites that read the clock; fallible external primitives (property
reads, client-id file I/O, temporary-file creation, pickling, process
launch) are driven by an `Oracle` saying which primitive raises, and
functions that can raise return `Except`, the error carrying the state
at the throw point.  File creation and process launch are recorded as
`Effect`s; `pickle.dump`/`pickle.load` round-trip is modelled by letting
the temporary-file effect carry the request list itself.
-/

namespace Metrics

/-- Module-level constant `_GA_ENDPOINT`. -/
def _GA_ENDPOINT : String := "https://ssl.google-analytics.com/collect"

/-- Module-level constant `_GA_TID`. -/
def _GA_TID : String := "UA-36037335-2"

/-- Module-level constant `_GA_INSTALLS_CATEGORY`. -/
def _GA_INSTALLS_CATEGORY : String := "Installs"

/-- Module-level constant `_GA_COMMANDS_CATEGORY`. -/
def _GA_COMMANDS_CATEGORY : String := "Commands"

/-- Module-level constant `_GA_HELP_CATEGORY`. -/
def _GA_HELP_CATEGORY : String := "Help"

/-- Module-level constant `_GA_ERROR_CATEGORY`. -/
def _GA_ERROR_CATEGORY : String := "Error"

/-- Module-level constant `_GA_EXECUTIONS_CATEGORY`. -/
def _GA_EXECUTIONS_CATEGORY : String := "Executions"

/-- Module-level constant `_CSI_ENDPOINT`. -/
def _CSI_ENDPOINT : String := "https://csi.gstatic.com/csi"

/-- Module-level constant `_CSI_ID`. -/
def _CSI_ID : String := "cloud_sdk"

/-- Module-level constant `_CSI_LOAD_EVENT`. -/
def _CSI_LOAD_EVENT : String := "load"

/-- Module-level constant `_CSI_RUN_EVENT`. -/
def _CSI_RUN_EVENT : String := "run"

/-- Module-level constant `_CSI_TOTAL_EVENT`. -/
def _CSI_TOTAL_EVENT : String := "total"

/-- Python `str.replace(old, new)` where `old` and `new` are single
characters: with a one-character pattern the non-overlapping left-to-right
replacement performed by `str.replace` is exactly a character map.  The
source only calls `replace` with one-character arguments. -/
def pyReplaceChar (s : String) (old new : Char) : String :=
  String.mk (s.toList.map fun c => if c = old then new else c)

/-- Python `str.endswith(t)`. -/
def pyEndsWith (s t : String) : Bool :=
  t.toList.isSuffixOf s.toList

/-- Python `str(b)` for a `bool` (used when `urllib.urlencode` stringifies
the `cd4` parameter value). -/
def pyBoolStr (b : Bool) : String :=
  if b then "True" else "False"

/-- Uppercase hexadecimal digit, as used by `urllib.quote` percent escapes. -/
def hexUpperChar (n : Nat) : Char :=
  if n < 10 then Char.ofNat (48 + n) else Char.ofNat (55 + n)

/-- Lowercase hexadecimal digit, as used by Python `"%x"` formatting. -/
def hexLowerChar (n : Nat) : Char :=
  if n < 10 then Char.ofNat (48 + n) else Char.ofNat (87 + n)

/-- Python 2 `urllib.always_safe` membership: ASCII letters, digits and
`_`, `.`, `-` are emitted unescaped by `quote_plus`. -/
def alwaysSafeChar (c : Char) : Bool :=
  c.isAlpha || c.isDigit || c = '_' || c = '.' || c = '-'

/-- A `%XX` escape for one byte (the embedded strings are Python 2 byte
strings, so every character code is below 256). -/
def percentEncodeByte (n : Nat) : String :=
  String.mk ['%', hexUpperChar (n / 16 % 16), hexUpperChar (n % 16)]

/-- Python 2 `urllib.quote_plus`: safe characters kept, space becomes `+`,
every other byte becomes a `%XX` escape. -/
def quotePlus (s : String) : String :=
  String.join (s.toList.map fun c =>
    if alwaysSafeChar c then String.mk [c]
    else if c = ' ' then "+"
    else percentEncodeByte c.toNat)

/-- Python 2 `urllib.urlencode` on an association list whose values have
already been stringified: `k=v` pairs, `quote_plus`-escaped, joined by
`&`. -/
def urlencode (params : List (String × String)) : String :=
  String.intercalate "&" (params.map fun p => quotePlus p.1 ++ "=" ++ quotePlus p.2)

/-- Python `uuid.uuid4().hex` for a 128-bit random source `u`: the
32-nibble lowercase-hex rendering `"%032x" % u` (big-endian, zero
padded; `u < 2 ^ 128` per the uuid4 contract). -/
def uuid4Hex (u : Nat) : String :=
  String.mk ((List.range 32).map fun i => hexLowerChar (u / 16 ^ (31 - i) % 16))

/-- Lowercase hexadecimal digit test (`0`-`9`, `a`-`f`). -/
def isLowerHexDigit (c : Char) : Bool :=
  c.isDigit || ('a' ≤ c && c ≤ 'f')

/-- Whether an `Except` result is a normal return (no exception). -/
def isOkE {ε α : Type} : Except ε α → Bool
  | .ok _ => true
  | .error _ => false

/-- `_GAEvent.__init__`. -/
structure _GAEvent where
  category : String
  action : String
  label : String
  value : Int
deriving DecidableEq, Repr

/-- `_TimedEvent.__init__`: the name together with the clock value
(already converted to milliseconds by `_GetTimeMillis`) captured at the
call. -/
structure _TimedEvent where
  name : String
  time_millis : Int
deriving DecidableEq, Repr

/-- `_CommandTimer.__init__`: start time in milliseconds, the recorded
events, and the current action name (initially `"unknown"`). -/
structure _CommandTimer where
  start : Int
  events : List _TimedEvent
  action : String
deriving DecidableEq, Repr

/-- `_CommandTimer(start_time)` where `startMillis` is
`_GetTimeMillis(start_time)`. -/
def _CommandTimer.init (startMillis : Int) : _CommandTimer :=
  { start := startMillis, events := [], action := "unknown" }

/-- `_CommandTimer.SetAction`: stores the action with `.` rewritten to `,`
and `-` rewritten to `_`. -/
def _CommandTimer.SetAction (t : _CommandTimer) (action : String) : _CommandTimer :=
  { t with action := pyReplaceChar (pyReplaceChar action '.' ',') '-' '_' }

/-- `_CommandTimer.Event`: appends a `_TimedEvent` stamped with the clock
value (in milliseconds) at the call. -/
def _CommandTimer.Event (t : _CommandTimer) (name : String) (nowMillis : Int) : _CommandTimer :=
  { t with events := t.events ++ [{ name := name, time_millis := nowMillis }] }

/-- `_CommandTimer.GetCSIParams`: the `action` parameter followed by the
`rt` parameter, a comma-joined list of `name.offset` pairs with offsets
relative to the timer start. -/
def _CommandTimer.GetCSIParams (t : _CommandTimer) : List (String × String) :=
  [("action", t.action),
   ("rt", String.intercalate ","
      (t.events.map fun e => e.name ++ "." ++ toString (e.time_millis - t.start)))]

/-- One entry of `_MetricsCollector._metrics`: the
`(url, http-method, body-or-None, user-agent)` tuple. -/
structure PendingRequest where
  url : String
  method : String
  body : Option String
  userAgent : String
deriving DecidableEq, Repr

/-- Instance state of a constructed `_MetricsCollector`. -/
structure Collector where
  userAgent : String
  projectIds : List (String × String)
  gaParams : List (String × String)
  csiParams : List (String × String)
  timer : _CommandTimer
  metrics : List PendingRequest
deriving DecidableEq, Repr

/-- Process-wide mutable state: the memoized disable decision
(`_MetricsCollector._disabled_cache`), the singleton instance
(`_MetricsCollector._instance`), and the contents of the client-id file
(`None` when the file does not exist). -/
structure GlobalState where
  disabledCache : Option Bool
  inst : Option Collector
  cidFile : Option String
deriving DecidableEq, Repr

/-- Read-only inputs consulted by the module: the `_ARGCOMPLETE`
environment marker, the `core/disable_usage_reporting` property, the
installation default, the version/platform/host identification data, the
configured project, the uuid4 random source and the sha1 hex-digest
primitive (an external library treated as an abstract function). -/
structure Env where
  argcomplete : Bool
  disableUsageReportingPref : Option Bool
  installationDefaultDisabled : Bool
  cloudSdkVersion : String
  userAgentFragment : String
  hostname : String
  releaseChannel : String
  metricsEnvironment : String
  isInteractive : Bool
  projectId : Option String
  uuidRandom : Nat
  sha1Hex : String → String

/-- Which fallible external primitive raises, if any. -/
structure Oracle where
  getBoolFails : Bool
  cidReadFails : Bool
  cidWriteFails : Bool
  tempFileFails : Bool
  pickleFails : Bool
  popenFails : Bool
deriving DecidableEq, Repr

/-- The oracle under which no primitive raises (normal operation). -/
def noFail : Oracle :=
  { getBoolFails := false, cidReadFails := false, cidWriteFails := false,
    tempFileFails := false, pickleFails := false, popenFails := false }

/-- The exception raised by a failing primitive. -/
inductive PyErr where
  | getBoolError
  | cidReadError
  | cidWriteError
  | tempFileError
  | pickleError
  | popenError
deriving DecidableEq, Repr

/-- Externally visible side effects: creation of the temporary metrics
file (carrying the request list whose pickled form it holds), the launch
of the detached reporter process, and the diagnostic log write performed
by the `CaptureAndLogException` wrapper when it catches an exception. -/
inductive Effect where
  | createTempFile (contents : List PendingRequest)
  | launchProcess
  | logDebug
deriving DecidableEq, Repr

/-- `_MetricsCollector._IsDisabled`: returns the memoized value when the
cache is set; otherwise checks the `_ARGCOMPLETE` marker, then the user
preference (a property read that may raise), then the installation
default, and memoizes the result.  Returns the decision together with
the new cache. -/
def _IsDisabledE (o : Oracle) (env : Env) (cache : Option Bool) :
    Except PyErr (Bool × Option Bool) :=
  match cache with
  | some b => .ok (b, some b)
  | none =>
    if env.argcomplete then .ok (true, some true)
    else if o.getBoolFails then .error .getBoolError
    else
      let disabled :=
        match env.disableUsageReportingPref with
        | some b => b
        | none => env.installationDefaultDisabled
      .ok (disabled, some disabled)

/-- The disable decision the gate computes on first evaluation
(environment marker, then user preference, then installation default,
first match winning); stated separately so theorems can speak about
"the gate says disabled" without mentioning the cache. -/
def envSaysDisabled (env : Env) : Bool :=
  if env.argcomplete then true
  else
    match env.disableUsageReportingPref with
    | some b => b
    | none => env.installationDefaultDisabled

/-- `_MetricsCollector._GetCID`: if the identity file exists and is
non-empty return its contents verbatim; otherwise generate
`uuid.uuid4().hex`, persist it, and return it.  Returns the client id
together with the new file contents. -/
def _GetCIDE (o : Oracle) (file : Option String) (u : Nat) :
    Except PyErr (String × Option String) :=
  match file with
  | some contents =>
    if o.cidReadFails then .error .cidReadError
    else if contents = "" then
      if o.cidWriteFails then .error .cidWriteError
      else .ok (uuid4Hex u, some (uuid4Hex u))
    else .ok (contents, some contents)
  | none =>
    if o.cidWriteFails then .error .cidWriteError
    else .ok (uuid4Hex u, some (uuid4Hex u))

/-- `_MetricsCollector.__init__`: derives the user agent, loads or
creates the client id, resolves the install type from the host name and
builds the fixed GA and CSI parameter lists, and starts a fresh timer at
the current time. -/
def Collector.initE (o : Oracle) (env : Env) (cidFile : Option String) (nowMillis : Int) :
    Except PyErr (Collector × Option String) :=
  match _GetCIDE o cidFile env.uuidRandom with
  | .error e => .error e
  | .ok (cid, cidFile') =>
    let installType := if pyEndsWith env.hostname ".google.com" then "Google" else "External"
    .ok ({ userAgent := "CloudSDK/" ++ env.cloudSdkVersion ++ " " ++ env.userAgentFragment,
           projectIds := [],
           gaParams :=
             [("v", "1"), ("tid", _GA_TID), ("cid", cid), ("t", "event"),
              ("cd1", env.releaseChannel), ("cd2", installType),
              ("cd3", env.metricsEnvironment), ("cd4", pyBoolStr env.isInteractive)],
           csiParams := [("s", _CSI_ID), ("v", "2"), ("rls", env.cloudSdkVersion)],
           timer := _CommandTimer.init nowMillis,
           metrics := [] }, cidFile')

/-- `_MetricsCollector.GetCollectorIfExists`. -/
def GetCollectorIfExists (s : GlobalState) : Option Collector :=
  s.inst

/-- `_MetricsCollector.GetCollector`: `None` when `_IsDisabled` says
disabled, otherwise the lazily constructed singleton.  Errors carry the
state at the throw point. -/
def GetCollectorE (o : Oracle) (env : Env) (s : GlobalState) (nowMillis : Int) :
    Except (PyErr × GlobalState) (Option Collector × GlobalState) :=
  match _IsDisabledE o env s.disabledCache with
  | .error e => .error (e, s)
  | .ok (disabled, cache') =>
    let s' := { s with disabledCache := cache' }
    if disabled then .ok (none, s')
    else
      match s'.inst with
      | some c => .ok (some c, s')
      | none =>
        match Collector.initE o env s'.cidFile nowMillis with
        | .error e => .error (e, s')
        | .ok (c, cidFile') =>
          .ok (some c, { s' with inst := some c, cidFile := cidFile' })

/-- Python `dict` assignment `d[k] = v` on the association-list model. -/
def dictInsert (d : List (String × String)) (k v : String) : List (String × String) :=
  if (d.lookup k).isSome then d.map (fun p => if p.1 = k then (k, v) else p)
  else d ++ [(k, v)]

/-- `_MetricsCollector._GetProjectIDHash`: `None` when no project is
configured (Python falsy check), otherwise the sha1 hex digest of the
project id, memoized in the per-collector dictionary (recomputed when
the cached value is falsy, as `if not hashed_id` does). -/
def Collector._GetProjectIDHash (env : Env) (c : Collector) : Option String × Collector :=
  match env.projectId with
  | none => (none, c)
  | some pid =>
    if pid = "" then (none, c)
    else
      match c.projectIds.lookup pid with
      | some h =>
        if h = "" then
          let h' := env.sha1Hex pid
          (some h', { c with projectIds := dictInsert c.projectIds pid h' })
        else (some h, c)
      | none =>
        let h' := env.sha1Hex pid
        (some h', { c with projectIds := dictInsert c.projectIds pid h' })

/-- The `[ec, ea, el, ev]` parameter list built by `CollectGAMetric`
(`ev` stringified as `urlencode` does). -/
def _GAEventParams (event : _GAEvent) : List (String × String) :=
  [("ec", event.category), ("ea", event.action),
   ("el", event.label), ("ev", toString event.value)]

/-- `_MetricsCollector.CollectGAMetric`: appends one POST request to the
GA endpoint whose body is the urlencoded event parameters, the optional
`cd11` project hash (when truthy), and the fixed GA parameters. -/
def Collector.CollectGAMetric (env : Env) (c : Collector) (event : _GAEvent) : Collector :=
  let r := c._GetProjectIDHash env
  let c' := r.2
  let params :=
    match r.1 with
    | some h => if h = "" then _GAEventParams event else _GAEventParams event ++ [("cd11", h)]
    | none => _GAEventParams event
  let data := urlencode (params ++ c'.gaParams)
  { c' with metrics := c'.metrics ++
      [{ url := _GA_ENDPOINT, method := "POST", body := some data, userAgent := c'.userAgent }] }

/-- `_MetricsCollector.CollectCSIMetric`: appends one GET request to the
CSI endpoint carrying the timer's parameters followed by the fixed CSI
parameters in the query string. -/
def Collector.CollectCSIMetric (c : Collector) : Collector :=
  let params := c.timer.GetCSIParams ++ c.csiParams
  let data := urlencode params
  { c with metrics := c.metrics ++
      [{ url := _CSI_ENDPOINT ++ "?" ++ data, method := "GET", body := none,
         userAgent := c.userAgent }] }

/-- `_MetricsCollector.StartTimer`. -/
def Collector.StartTimer (c : Collector) (startMillis : Int) : Collector :=
  { c with timer := _CommandTimer.init startMillis }

/-- `_MetricsCollector.RecordTimedEvent`. -/
def Collector.RecordTimedEvent (c : Collector) (name : String) (nowMillis : Int) : Collector :=
  { c with timer := c.timer.Event name nowMillis }

/-- `_MetricsCollector.SetTimerAction`. -/
def Collector.SetTimerAction (c : Collector) (action : String) : Collector :=
  { c with timer := c.timer.SetAction action }

/-- `_MetricsCollector.ReportMetrics`: returns immediately on an empty
queue; otherwise creates the temporary file, pickles the queue into it,
clears the queue, and launches the detached reporter process.  There is
no exception handling here: a failing primitive raises out of the
function (with the queue still intact when the failure precedes the
clearing assignment). -/
def Collector.ReportMetricsE (o : Oracle) (c : Collector) :
    Except (PyErr × Collector) (Collector × List Effect) :=
  if c.metrics = [] then .ok (c, [])
  else if o.tempFileFails then .error (.tempFileError, c)
  else if o.pickleFails then .error (.pickleError, c)
  else
    let drained := c.metrics
    let c' := { c with metrics := [] }
    if o.popenFails then .error (.popenError, c')
    else .ok (c', [.createTempFile drained, .launchProcess])

/-- The decorator `CaptureAndLogException` applied to a computed result:
a normal return passes through; a raised exception is swallowed, logged
at debug level, and the wrapper returns (the wrapped Python function
then returns `None`) with the state as it was at the throw point. -/
def CaptureAndLogException (r : Except (PyErr × GlobalState) (GlobalState × List Effect)) :
    GlobalState × List Effect :=
  match r with
  | .ok x => x
  | .error (_, s) => (s, [Effect.logDebug])

/-- `_CollectGAMetricAndSetTimerAction`: fetch the collector through the
gate; when one is returned, enqueue the GA event and update the timer
action from category/action(/label).  The `is` comparisons of the source
compare the interned category constants, which coincides with string
equality at every call site. -/
def _CollectGAMetricAndSetTimerAction (o : Oracle) (env : Env) (s : GlobalState)
    (nowMillis : Int) (category action label : String) (value : Int) :
    Except (PyErr × GlobalState) GlobalState :=
  match GetCollectorE o env s nowMillis with
  | .error e => .error e
  | .ok (none, s') => .ok s'
  | .ok (some c, s') =>
    let c₁ := c.CollectGAMetric env
      { category := category, action := action, label := label, value := value }
    let c₂ :=
      if category = _GA_COMMANDS_CATEGORY ∨ category = _GA_EXECUTIONS_CATEGORY then
        c₁.SetTimerAction (category ++ "." ++ action)
      else if category = _GA_ERROR_CATEGORY ∨ category = _GA_HELP_CATEGORY then
        c₁.SetTimerAction (category ++ "." ++ action ++ "." ++ label)
      else c₁
    .ok { s' with inst := some c₂ }

/-- Python falsiness of the optional `version_string` argument: `None`
and the empty string are falsy, so `if not version_string` replaces both
by `"unknown"`. -/
def versionOrUnknown (versionString : Option String) : String :=
  match versionString with
  | none => "unknown"
  | some str => if str = "" then "unknown" else str

/-- Body of `Installs` (before the decorator). -/
def InstallsInner (o : Oracle) (env : Env) (s : GlobalState) (nowMillis : Int)
    (componentId versionString : String) :
    Except (PyErr × GlobalState) (GlobalState × List Effect) :=
  (_CollectGAMetricAndSetTimerAction o env s nowMillis
    _GA_INSTALLS_CATEGORY componentId versionString 0).map (fun s' => (s', []))

/-- `Installs`, decorated with `CaptureAndLogException`. -/
def Installs (o : Oracle) (env : Env) (s : GlobalState) (nowMillis : Int)
    (componentId versionString : String) : GlobalState × List Effect :=
  CaptureAndLogException (InstallsInner o env s nowMillis componentId versionString)

/-- Body of `Commands` (before the decorator): a falsy version string is
replaced by `"unknown"`. -/
def CommandsInner (o : Oracle) (env : Env) (s : GlobalState) (nowMillis : Int)
    (commandPath : String) (versionString : Option String) :
    Except (PyErr × GlobalState) (GlobalState × List Effect) :=
  (_CollectGAMetricAndSetTimerAction o env s nowMillis
    _GA_COMMANDS_CATEGORY commandPath (versionOrUnknown versionString) 0).map (fun s' => (s', []))

/-- `Commands`, decorated with `CaptureAndLogException`. -/
def Commands (o : Oracle) (env : Env) (s : GlobalState) (nowMillis : Int)
    (commandPath : String) (versionString : Option String) : GlobalState × List Effect :=
  CaptureAndLogException (CommandsInner o env s nowMillis commandPath versionString)

/-- Body of `Help` (before the decorator). -/
def HelpInner (o : Oracle) (env : Env) (s : GlobalState) (nowMillis : Int)
    (commandPath mode : String) :
    Except (PyErr × GlobalState) (GlobalState × List Effect) :=
  (_CollectGAMetricAndSetTimerAction o env s nowMillis
    _GA_HELP_CATEGORY commandPath mode 0).map (fun s' => (s', []))

/-- `Help`, decorated with `CaptureAndLogException`. -/
def Help (o : Oracle) (env : Env) (s : GlobalState) (nowMillis : Int)
    (commandPath mode : String) : GlobalState × List Effect :=
  CaptureAndLogException (HelpInner o env s nowMillis commandPath mode)

/-- The exception-name derivation of `Error`: `module.name` of the
exception class, or `"unknown"` when the attribute access itself raises
(the inner bare `except`); the exception argument is modelled by the
optional pair of its class's module and name. -/
def errorEventName (excInfo : Option (String × String)) : String :=
  match excInfo with
  | some mn => mn.1 ++ "." ++ mn.2
  | none => "unknown"

/-- Body of `Error` (before the decorator). -/
def ErrorInner (o : Oracle) (env : Env) (s : GlobalState) (nowMillis : Int)
    (commandPath : String) (excInfo : Option (String × String)) :
    Except (PyErr × GlobalState) (GlobalState × List Effect) :=
  (_CollectGAMetricAndSetTimerAction o env s nowMillis
    _GA_ERROR_CATEGORY commandPath (errorEventName excInfo) 0).map (fun s' => (s', []))

/-- `Error`, decorated with `CaptureAndLogException`. -/
def Error (o : Oracle) (env : Env) (s : GlobalState) (nowMillis : Int)
    (commandPath : String) (excInfo : Option (String × String)) : GlobalState × List Effect :=
  CaptureAndLogException (ErrorInner o env s nowMillis commandPath excInfo)

/-- Body of `Executions` (before the decorator): a falsy version string
is replaced by `"unknown"`. -/
def ExecutionsInner (o : Oracle) (env : Env) (s : GlobalState) (nowMillis : Int)
    (commandName : String) (versionString : Option String) :
    Except (PyErr × GlobalState) (GlobalState × List Effect) :=
  (_CollectGAMetricAndSetTimerAction o env s nowMillis
    _GA_EXECUTIONS_CATEGORY commandName (versionOrUnknown versionString) 0).map (fun s' => (s', []))

/-- `Executions`, decorated with `CaptureAndLogException`. -/
def Executions (o : Oracle) (env : Env) (s : GlobalState) (nowMillis : Int)
    (commandName : String) (versionString : Option String) : GlobalState × List Effect :=
  CaptureAndLogException (ExecutionsInner o env s nowMillis commandName versionString)

/-- Body of `Started` (before the decorator): fetch the collector (which
may construct it at clock value `nowMillis`) and restart its timer at
the caller-supplied start time. -/
def StartedInner (o : Oracle) (env : Env) (s : GlobalState) (nowMillis startMillis : Int) :
    Except (PyErr × GlobalState) (GlobalState × List Effect) :=
  match GetCollectorE o env s nowMillis with
  | .error e => .error e
  | .ok (none, s') => .ok (s', [])
  | .ok (some c, s') => .ok ({ s' with inst := some (c.StartTimer startMillis) }, [])

/-- `Started`, decorated with `CaptureAndLogException`. -/
def Started (o : Oracle) (env : Env) (s : GlobalState) (nowMillis startMillis : Int) :
    GlobalState × List Effect :=
  CaptureAndLogException (StartedInner o env s nowMillis startMillis)

/-- Body of `Loaded` (before the decorator). -/
def LoadedInner (o : Oracle) (env : Env) (s : GlobalState) (nowMillis : Int) :
    Except (PyErr × GlobalState) (GlobalState × List Effect) :=
  match GetCollectorE o env s nowMillis with
  | .error e => .error e
  | .ok (none, s') => .ok (s', [])
  | .ok (some c, s') =>
    .ok ({ s' with inst := some (c.RecordTimedEvent _CSI_LOAD_EVENT nowMillis) }, [])

/-- `Loaded`, decorated with `CaptureAndLogException`. -/
def Loaded (o : Oracle) (env : Env) (s : GlobalState) (nowMillis : Int) :
    GlobalState × List Effect :=
  CaptureAndLogException (LoadedInner o env s nowMillis)

/-- Body of `Ran` (before the decorator). -/
def RanInner (o : Oracle) (env : Env) (s : GlobalState) (nowMillis : Int) :
    Except (PyErr × GlobalState) (GlobalState × List Effect) :=
  match GetCollectorE o env s nowMillis with
  | .error e => .error e
  | .ok (none, s') => .ok (s', [])
  | .ok (some c, s') =>
    .ok ({ s' with inst := some (c.RecordTimedEvent _CSI_RUN_EVENT nowMillis) }, [])

/-- `Ran`, decorated with `CaptureAndLogException`. -/
def Ran (o : Oracle) (env : Env) (s : GlobalState) (nowMillis : Int) :
    GlobalState × List Effect :=
  CaptureAndLogException (RanInner o env s nowMillis)

/-- Body of `Shutdown` (before the decorators): only an already-existing
collector is used (`GetCollectorIfExists`); when one exists, record the
`total` checkpoint, enqueue the latency report, and flush. -/
def ShutdownInner (o : Oracle) (s : GlobalState) (nowMillis : Int) :
    Except (PyErr × GlobalState) (GlobalState × List Effect) :=
  match GetCollectorIfExists s with
  | none => .ok (s, [])
  | some c =>
    let c₁ := (c.RecordTimedEvent _CSI_TOTAL_EVENT nowMillis).CollectCSIMetric
    match c₁.ReportMetricsE o with
    | .error (e, c') => .error (e, { s with inst := some c' })
    | .ok (c', effs) => .ok ({ s with inst := some c' }, effs)

/-- The module-level `Shutdown` name: the body decorated with
`CaptureAndLogException`.  This wrapped callable is what in-process
callers of the module attribute get; it is not what `atexit` invokes at
process exit — see `atexitRegisteredShutdown`. -/
def Shutdown (o : Oracle) (s : GlobalState) (nowMillis : Int) : GlobalState × List Effect :=
  CaptureAndLogException (ShutdownInner o s nowMillis)

/-- The callable `atexit` actually invokes at process exit.  Decorators
apply bottom-up, so `atexit.register` — the inner decorator — receives
the undecorated `Shutdown` body, registers it, and returns it unchanged;
only the module-level name is then rebound to the
`CaptureAndLogException` wrapping.  The exit-time hook is therefore the
bare body, with no exception guard. -/
def atexitRegisteredShutdown (o : Oracle) (s : GlobalState) (nowMillis : Int) :
    Except (PyErr × GlobalState) (GlobalState × List Effect) :=
  ShutdownInner o s nowMillis

/-- One call to a public entry point of the module, with the clock
values read during that call. -/
inductive Op where
  | installs (componentId versionString : String) (nowMillis : Int)
  | commands (commandPath : String) (versionString : Option String) (nowMillis : Int)
  | help (commandPath mode : String) (nowMillis : Int)
  | errOp (commandPath : String) (excInfo : Option (String × String)) (nowMillis : Int)
  | executions (commandName : String) (versionString : Option String) (nowMillis : Int)
  | started (nowMillis startMillis : Int)
  | loaded (nowMillis : Int)
  | ran (nowMillis : Int)
  | shutdown (nowMillis : Int)

/-- Dispatch one public call. -/
def runOp (o : Oracle) (env : Env) (s : GlobalState) : Op → GlobalState × List Effect
  | .installs componentId versionString nowMillis =>
    Installs o env s nowMillis componentId versionString
  | .commands commandPath versionString nowMillis =>
    Commands o env s nowMillis commandPath versionString
  | .help commandPath mode nowMillis => Help o env s nowMillis commandPath mode
  | .errOp commandPath excInfo nowMillis => Error o env s nowMillis commandPath excInfo
  | .executions commandName versionString nowMillis =>
    Executions o env s nowMillis commandName versionString
  | .started nowMillis startMillis => Started o env s nowMillis startMillis
  | .loaded nowMillis => Loaded o env s nowMillis
  | .ran nowMillis => Ran o env s nowMillis
  | .shutdown nowMillis => Shutdown o s nowMillis

/-- Run a sequence of public calls, accumulating effects. -/
def runOps (o : Oracle) (env : Env) : GlobalState → List Op → GlobalState × List Effect
  | s, [] => (s, [])
  | s, op :: rest =>
    let r := runOp o env s op
    let r' := runOps o env r.1 rest
    (r'.1, r.2 ++ r'.2)

/-- A concrete enabled environment for the end-to-end scenario of the
spec (policy explicitly enabled, no project configured). -/
def scenarioEnv : Env :=
  { argcomplete := false
    disableUsageReportingPref := some false
    installationDefaultDisabled := false
    cloudSdkVersion := "0.9.57"
    userAgentFragment := "(Linux 3.13)"
    hostname := "host.example.com"
    releaseChannel := "stable"
    metricsEnvironment := "devel"
    isInteractive := true
    projectId := none
    uuidRandom := 0
    sha1Hex := fun _ => "" }

/-- A concrete disabled environment: the shell-completion marker is
present. -/
def disabledEnv : Env :=
  { scenarioEnv with argcomplete := true }

/-- Fresh-process state: nothing cached, no singleton, no identity file. -/
def scenarioStart : GlobalState :=
  { disabledCache := none, inst := none, cidFile := none }

/-- State after `Commands("compute.instances.list", "1.0")` in the
end-to-end scenario, with the collector constructed at clock value
1000 ms. -/
def scenarioAfterCommands : GlobalState :=
  match CommandsInner noFail scenarioEnv scenarioStart 1000 "compute.instances.list" (some "1.0") with
  | .ok r => r.1
  | .error e => e.2

/-- The collector instance after the scenario's `Commands` call (the
fallback branch is unreachable: the gate is enabled, so the call
constructs the singleton). -/
def scenarioCollector : Collector :=
  match scenarioAfterCommands.inst with
  | some c => c
  | none => { userAgent := "", projectIds := [], gaParams := [], csiParams := [],
              timer := _CommandTimer.init 0, metrics := [] }

/-- The collector at the point of the shutdown path just before
`ReportMetrics`: the `total` checkpoint recorded at clock value 3500 ms
and the latency report enqueued. -/
def scenarioBeforeFlush : Collector :=
  (scenarioCollector.RecordTimedEvent _CSI_TOTAL_EVENT 3500).CollectCSIMetric

/-- A concrete pending request used by witnesses. -/
def sampleRequest : PendingRequest :=
  { url := _GA_ENDPOINT, method := "POST", body := some "ec=Commands", userAgent := "ua" }

/-- A concrete collector whose queue holds one request. -/
def sampleCollector : Collector :=
  { userAgent := "ua", projectIds := [],
    gaParams := [("v", "1")], csiParams := [("s", _CSI_ID)],
    timer := _CommandTimer.init 0, metrics := [sampleRequest] }

/-- A concrete collector with an empty queue. -/
def emptyCollector : Collector :=
  { sampleCollector with metrics := [] }

/-- A concrete process state holding `sampleCollector` with the gate
memoized as enabled. -/
def sampleState : GlobalState :=
  { disabledCache := some false, inst := some sampleCollector, cidFile := none }

/-- The state at the throw point when the reporter launch raises during
the shutdown flush of `sampleState` at clock value 0: the queue was
already drained. -/
def sampleStateAfterThrow : GlobalState :=
  { sampleState with
    inst := some { (sampleCollector.RecordTimedEvent _CSI_TOTAL_EVENT 0).CollectCSIMetric with
                   metrics := [] } }

/-- The oracle under which only the reporter-process launch raises. -/
def popenFailOracle : Oracle :=
  { noFail with popenFails := true }

/-- The oracle under which only the preference read raises. -/
def getBoolFailOracle : Oracle :=
  { noFail with getBoolFails := true }

/-- The oracle under which only the temporary-file creation raises. -/
def tempFileFailOracle : Oracle :=
  { noFail with tempFileFails := true }

/-- Every value `hexLowerChar` produces for a nibble is a lowercase hex
digit. -/
theorem isLowerHexDigit_hexLowerChar (n : Nat) (h : n < 16) :
    isLowerHexDigit (hexLowerChar n) = true := by
  interval_cases n <;> decide

/-- `uuid4Hex` always renders exactly 32 characters. -/
theorem uuid4Hex_length (u : Nat) : (uuid4Hex u).length = 32 := by
  simp [uuid4Hex, String.length]

/-- Every character of a `uuid4Hex` rendering is a lowercase hex digit. -/
theorem uuid4Hex_lowerHex (u : Nat) : (uuid4Hex u).toList.all isLowerHexDigit = true := by
  simp only [uuid4Hex, String.toList, List.all_eq_true]
  intro c hc
  obtain ⟨i, _, rfl⟩ := List.mem_map.1 hc
  exact isLowerHexDigit_hexLowerChar _ (Nat.mod_lt _ (by norm_num))

/-- C5: `SetTimerAction` stores the new action with every `.` replaced by
`,` and every `-` replaced by `_`; the result does not depend on the
previously stored action (last write wins), and the timer's start and
events are untouched. -/
theorem C5_setTimerAction (t₁ t₂ : _CommandTimer) (a : String) :
    (t₁.SetAction a).action = pyReplaceChar (pyReplaceChar a '.' ',') '-' '_' ∧
    (t₁.SetAction a).action.toList =
      a.toList.map (fun c => if c = '.' then ',' else if c = '-' then '_' else c) ∧
    (t₁.SetAction a).action = (t₂.SetAction a).action ∧
    (t₁.SetAction a).start = t₁.start ∧
    (t₁.SetAction a).events = t₁.events := by
  refine ⟨rfl, ?_, rfl, rfl, rfl⟩
  show (pyReplaceChar (pyReplaceChar a '.' ',') '-' '_').toList = _
  simp only [pyReplaceChar, String.toList, List.map_map]
  apply List.map_congr_left
  intro c _
  by_cases h1 : c = '.' <;> by_cases h2 : c = '-' <;> simp [h1, h2]

/-- C2: on a cold cache the gate computes the decision with the
shell-completion marker first, then an explicitly set user preference,
then the installation default, and memoizes it; on a warm cache every
call returns the memoized value whatever the current environment and
oracle are. -/
theorem C2_disableGateMemoized (o o' : Oracle) (env env' : Env)
    (h : o.getBoolFails = false) :
    _IsDisabledE o env none = .ok (envSaysDisabled env, some (envSaysDisabled env)) ∧
    (env.argcomplete = true → envSaysDisabled env = true) ∧
    (env.argcomplete = false → ∀ b, env.disableUsageReportingPref = some b →
      envSaysDisabled env = b) ∧
    (env.argcomplete = false → env.disableUsageReportingPref = none →
      envSaysDisabled env = env.installationDefaultDisabled) ∧
    (∀ b : Bool, _IsDisabledE o' env' (some b) = .ok (b, some b)) := by
  refine ⟨?_, ?_, ?_, ?_, fun b => rfl⟩
  · simp only [_IsDisabledE, envSaysDisabled, h]
    cases env.argcomplete
    · cases env.disableUsageReportingPref <;> simp
    · simp
  · intro ha; simp [envSaysDisabled, ha]
  · intro ha b hb; simp [envSaysDisabled, ha, hb]
  · intro ha hb; simp [envSaysDisabled, ha, hb]

/-- Witness for C2 at a concrete environment and oracle. -/
theorem C2_disableGateMemoized_witness :
    _IsDisabledE noFail scenarioEnv none =
      .ok (envSaysDisabled scenarioEnv, some (envSaysDisabled scenarioEnv)) ∧
    _IsDisabledE noFail disabledEnv (some false) = .ok (false, some false) :=
  ⟨(C2_disableGateMemoized noFail noFail scenarioEnv disabledEnv rfl).1,
   (C2_disableGateMemoized noFail noFail scenarioEnv disabledEnv rfl).2.2.2.2 false⟩

/-- C4: flushing an empty queue returns without creating a file or
launching a process; flushing a non-empty queue creates exactly one
temporary file carrying exactly the queued requests, launches the
reporter once, and leaves the queue empty. -/
theorem C4_flushBatches (c : Collector) :
    (c.metrics = [] → Collector.ReportMetricsE noFail c = .ok (c, [])) ∧
    (c.metrics ≠ [] →
      Collector.ReportMetricsE noFail c =
        .ok ({ c with metrics := [] },
          [Effect.createTempFile c.metrics, Effect.launchProcess])) := by
  constructor <;> intro h <;> simp [Collector.ReportMetricsE, noFail, h]

/-- Witness for C4 on concrete empty and one-element queues. -/
theorem C4_flushBatches_witness :
    Collector.ReportMetricsE noFail emptyCollector = .ok (emptyCollector, []) ∧
    Collector.ReportMetricsE noFail sampleCollector =
      .ok ({ sampleCollector with metrics := [] },
        [Effect.createTempFile sampleCollector.metrics, Effect.launchProcess]) :=
  ⟨(C4_flushBatches emptyCollector).1 rfl,
   (C4_flushBatches sampleCollector).2 (by decide)⟩

/-- C9: when no recording operation has constructed the collector, the
shutdown hook does nothing: the state is unchanged and no checkpoint,
latency report, file or process launch is produced, whatever the oracle
and the gate's policy. -/
theorem C9_shutdownNeverConstructs (o : Oracle) (s : GlobalState) (now : Int)
    (h : s.inst = none) :
    Shutdown o s now = (s, []) := by
  simp [Shutdown, ShutdownInner, GetCollectorIfExists, h, CaptureAndLogException]

/-- Witness for C9 on the fresh process state. -/
theorem C9_shutdownNeverConstructs_witness :
    Shutdown noFail scenarioStart 0 = (scenarioStart, []) :=
  C9_shutdownNeverConstructs noFail scenarioStart 0 rfl

/-- C8: on a fresh installation (identity file absent or empty) the
first client-id resolution returns a 32-character lowercase-hex string
and persists it; every later resolution that reads a non-empty identity
file returns its contents verbatim, in particular the persisted id. -/
theorem C8_clientId (o : Oracle) (u : Nat) (h1 : o.cidReadFails = false)
    (h2 : o.cidWriteFails = false) (_hu : u < 2 ^ 128) :
    _GetCIDE o none u = .ok (uuid4Hex u, some (uuid4Hex u)) ∧
    _GetCIDE o (some "") u = .ok (uuid4Hex u, some (uuid4Hex u)) ∧
    (uuid4Hex u).length = 32 ∧
    (uuid4Hex u).toList.all isLowerHexDigit = true ∧
    (∀ t : String, t ≠ "" → _GetCIDE o (some t) u = .ok (t, some t)) ∧
    _GetCIDE o (some (uuid4Hex u)) u = .ok (uuid4Hex u, some (uuid4Hex u)) := by
  have hne : uuid4Hex u ≠ "" := by
    intro hempty
    have := uuid4Hex_length u
    rw [hempty] at this
    simp at this
  refine ⟨?_, ?_, uuid4Hex_length u, uuid4Hex_lowerHex u, ?_, ?_⟩
  · simp [_GetCIDE, h2]
  · simp [_GetCIDE, h1, h2]
  · intro t ht; simp [_GetCIDE, h1, ht]
  · simp [_GetCIDE, h1, hne]

/-- Witness for C8 with the all-zero uuid source. -/
theorem C8_clientId_witness :
    _GetCIDE noFail none 0 = .ok (uuid4Hex 0, some (uuid4Hex 0)) ∧
    (uuid4Hex 0).length = 32 ∧
    _GetCIDE noFail (some (uuid4Hex 0)) 0 = .ok (uuid4Hex 0, some (uuid4Hex 0)) :=
  ⟨(C8_clientId noFail 0 rfl rfl (by norm_num)).1,
   (C8_clientId noFail 0 rfl rfl (by norm_num)).2.2.1,
   (C8_clientId noFail 0 rfl rfl (by norm_num)).2.2.2.2.2⟩

/-- C6 counterexample: with one queued request and a failing reporter
launch, `ReportMetrics` raises out of its own boundary (the result is an
exception, not a normal return). -/
theorem C6_counterexample :
    isOkE (Collector.ReportMetricsE popenFailOracle sampleCollector) = false := by decide

/-- C6 as amended: `ReportMetrics` has no exception handling of its own,
so with a non-empty queue a failure during temporary-file creation,
serialization, or the reporter-process launch propagates out of the
flush as an exception to its caller (with an empty queue those steps
never run and the flush returns normally before reaching them). -/
theorem C6_flushPropagates (o : Oracle) (c : Collector) (hm : c.metrics ≠ [])
    (hf : o.tempFileFails = true ∨ o.pickleFails = true ∨ o.popenFails = true) :
    isOkE (Collector.ReportMetricsE o c) = false := by
  cases ht : o.tempFileFails
  · cases hp : o.pickleFails
    · have hpo : o.popenFails = true := by
        rcases hf with h | h | h
        · rw [ht] at h; exact Bool.noConfusion h
        · rw [hp] at h; exact Bool.noConfusion h
        · exact h
      simp [Collector.ReportMetricsE, hm, ht, hp, hpo, isOkE]
    · simp [Collector.ReportMetricsE, hm, ht, hp, isOkE]
  · simp [Collector.ReportMetricsE, hm, ht, isOkE]

/-- Witness for the amended C6: a concrete temporary-file failure on a
one-request queue raises out of the flush. -/
theorem C6_flushPropagates_witness :
    isOkE (Collector.ReportMetricsE tempFileFailOracle sampleCollector) = false :=
  C6_flushPropagates tempFileFailOracle sampleCollector (by decide) (Or.inl rfl)

/-- C7 records a code bug in the shutdown conjunct: the eight recording
entry points are `CaptureAndLogException` wrappings and swallow internal
failures (shown at concrete failing inputs below), and so would the
wrapped module-level `Shutdown` callable — but the hook registered with
`atexit` is the undecorated body, because the inner decorator
`atexit.register` runs before the wrapping one.  At process exit with a
queued request and a raising reporter launch, the registered hook
therefore propagates the exception out of the shutdown hook instead of
logging it. -/
theorem C7_shutdownHookUnguarded :
    atexitRegisteredShutdown popenFailOracle sampleState 0 =
      .error (.popenError, sampleStateAfterThrow) ∧
    Shutdown popenFailOracle sampleState 0 = (sampleStateAfterThrow, [Effect.logDebug]) ∧
    Installs getBoolFailOracle scenarioEnv scenarioStart 0 "core" "1.0" =
      (scenarioStart, [Effect.logDebug]) ∧
    Commands getBoolFailOracle scenarioEnv scenarioStart 1 "a.b" (some "1.0") =
      (scenarioStart, [Effect.logDebug]) ∧
    Help getBoolFailOracle scenarioEnv scenarioStart 2 "a.b" "--help" =
      (scenarioStart, [Effect.logDebug]) ∧
    Error getBoolFailOracle scenarioEnv scenarioStart 3 "a.b" (some ("m", "E")) =
      (scenarioStart, [Effect.logDebug]) ∧
    Executions getBoolFailOracle scenarioEnv scenarioStart 4 "gcloud" (some "1.0") =
      (scenarioStart, [Effect.logDebug]) ∧
    Started getBoolFailOracle scenarioEnv scenarioStart 5 4 =
      (scenarioStart, [Effect.logDebug]) ∧
    Loaded getBoolFailOracle scenarioEnv scenarioStart 6 =
      (scenarioStart, [Effect.logDebug]) ∧
    Ran getBoolFailOracle scenarioEnv scenarioStart 7 =
      (scenarioStart, [Effect.logDebug]) :=
  ⟨by rfl, by rfl, by rfl, by rfl, by rfl, by rfl, by rfl, by rfl, by rfl, by rfl⟩

/-- `_GetProjectIDHash` mutates only the hash dictionary of the
collector. -/
theorem getProjectIDHash_preserves (env : Env) (c : Collector) :
    (c._GetProjectIDHash env).2.metrics = c.metrics ∧
    (c._GetProjectIDHash env).2.userAgent = c.userAgent ∧
    (c._GetProjectIDHash env).2.gaParams = c.gaParams := by
  unfold Collector._GetProjectIDHash
  rcases env.projectId with _ | pid
  · exact ⟨rfl, rfl, rfl⟩
  · by_cases hp : pid = ""
    · simp [hp]
    · simp only [hp, if_false]
      rcases hl : c.projectIds.lookup pid with _ | h
      · simp
      · by_cases hh : h = "" <;> simp [hh]

/-- `CollectGAMetric` appends exactly one POST request to the GA
endpoint, whose body is the urlencoded parameter list carrying the
event's category, action and label. -/
theorem collectGA_appends (env : Env) (c : Collector) (ev : _GAEvent) :
    ∃ ps, (Collector.CollectGAMetric env c ev).metrics =
        c.metrics ++
          [{ url := _GA_ENDPOINT, method := "POST", body := some (urlencode ps),
             userAgent := c.userAgent }] ∧
      ("ec", ev.category) ∈ ps ∧ ("ea", ev.action) ∈ ps ∧ ("el", ev.label) ∈ ps := by
  obtain ⟨hm, hu, hg⟩ := getProjectIDHash_preserves env c
  unfold Collector.CollectGAMetric
  rcases hph : (c._GetProjectIDHash env).1 with _ | h
  · refine ⟨_GAEventParams ev ++ (c._GetProjectIDHash env).2.gaParams,
      by simp [hph, hm, hu], ?_, ?_, ?_⟩ <;> simp [_GAEventParams]
  · by_cases hh : h = ""
    · refine ⟨_GAEventParams ev ++ (c._GetProjectIDHash env).2.gaParams,
        by simp [hph, hh, hm, hu], ?_, ?_, ?_⟩ <;> simp [_GAEventParams]
    · refine ⟨(_GAEventParams ev ++ [("cd11", h)]) ++ (c._GetProjectIDHash env).2.gaParams,
        by simp [hph, hh, hm, hu, List.append_assoc], ?_, ?_, ?_⟩ <;> simp [_GAEventParams]

/-- C10: `Commands` and `Executions` replace a missing or empty version
string by the label `"unknown"` and keep any non-empty version string
verbatim; the recorded analytics hit carries that label in its `el`
parameter. -/
theorem C10_versionFallback (env : Env) (s : GlobalState) (c : Collector) (now : Int)
    (cp : String) (v : Option String)
    (hg : s.disabledCache = some false) (hi : s.inst = some c) :
    versionOrUnknown none = "unknown" ∧
    versionOrUnknown (some "") = "unknown" ∧
    (∀ t : String, t ≠ "" → versionOrUnknown (some t) = t) ∧
    (∃ s₁ c₁ ps,
      CommandsInner noFail env s now cp v = .ok (s₁, []) ∧ s₁.inst = some c₁ ∧
      c₁.metrics = c.metrics ++
        [{ url := _GA_ENDPOINT, method := "POST", body := some (urlencode ps),
           userAgent := c.userAgent }] ∧
      ("ec", _GA_COMMANDS_CATEGORY) ∈ ps ∧ ("ea", cp) ∈ ps ∧
      ("el", versionOrUnknown v) ∈ ps) ∧
    (∃ s₁ c₁ ps,
      ExecutionsInner noFail env s now cp v = .ok (s₁, []) ∧ s₁.inst = some c₁ ∧
      c₁.metrics = c.metrics ++
        [{ url := _GA_ENDPOINT, method := "POST", body := some (urlencode ps),
           userAgent := c.userAgent }] ∧
      ("ec", _GA_EXECUTIONS_CATEGORY) ∈ ps ∧ ("ea", cp) ∈ ps ∧
      ("el", versionOrUnknown v) ∈ ps) := by
  have hgc : GetCollectorE noFail env s now =
      .ok (some c, { s with disabledCache := some false }) := by
    simp [GetCollectorE, _IsDisabledE, hg, hi]
  refine ⟨rfl, rfl, fun t ht => by simp [versionOrUnknown, ht], ?_, ?_⟩
  · obtain ⟨ps, hml, h1, h2, h3⟩ :=
      collectGA_appends env c
        { category := _GA_COMMANDS_CATEGORY, action := cp, label := versionOrUnknown v,
          value := 0 }
    have hstep : CommandsInner noFail env s now cp v =
        .ok ({ s with
               disabledCache := some false
               inst := some ((Collector.CollectGAMetric env c
                   { category := _GA_COMMANDS_CATEGORY, action := cp,
                     label := versionOrUnknown v, value := 0 }).SetTimerAction
                 (_GA_COMMANDS_CATEGORY ++ "." ++ cp)) }, []) := by
      simp [CommandsInner, _CollectGAMetricAndSetTimerAction, hgc, Except.map]
    exact ⟨_, _, ps, hstep, rfl, by simpa [Collector.SetTimerAction] using hml, h1, h2, h3⟩
  · obtain ⟨ps, hml, h1, h2, h3⟩ :=
      collectGA_appends env c
        { category := _GA_EXECUTIONS_CATEGORY, action := cp, label := versionOrUnknown v,
          value := 0 }
    have hstep : ExecutionsInner noFail env s now cp v =
        .ok ({ s with
               disabledCache := some false
               inst := some ((Collector.CollectGAMetric env c
                   { category := _GA_EXECUTIONS_CATEGORY, action := cp,
                     label := versionOrUnknown v, value := 0 }).SetTimerAction
                 (_GA_EXECUTIONS_CATEGORY ++ "." ++ cp)) }, []) := by
      simp [ExecutionsInner, _CollectGAMetricAndSetTimerAction, hgc, Except.map]
    exact ⟨_, _, ps, hstep, rfl, by simpa [Collector.SetTimerAction] using hml, h1, h2, h3⟩

/-- Witness for C10 on a concrete state, with an empty version string. -/
theorem C10_versionFallback_witness :
    versionOrUnknown (some "") = "unknown" ∧
    (∃ s₁ c₁ ps,
      CommandsInner noFail scenarioEnv sampleState 0 "compute.instances.list" (some "") =
        .ok (s₁, []) ∧ s₁.inst = some c₁ ∧
      c₁.metrics = sampleCollector.metrics ++
        [{ url := _GA_ENDPOINT, method := "POST",
           body := some (urlencode ps), userAgent := sampleCollector.userAgent }] ∧
      ("ec", _GA_COMMANDS_CATEGORY) ∈ ps ∧ ("ea", "compute.instances.list") ∈ ps ∧
      ("el", versionOrUnknown (some "")) ∈ ps) :=
  ⟨(C10_versionFallback scenarioEnv sampleState sampleCollector 0 "compute.instances.list"
      (some "") rfl rfl).2.1,
   (C10_versionFallback scenarioEnv sampleState sampleCollector 0 "compute.instances.list"
      (some "") rfl rfl).2.2.2.1⟩

/-- When the gate's first-evaluation decision is "disabled" and the
cache does not already say "enabled", `_IsDisabled` answers `true`
(memoizing `true`) unless the preference read raises on a cold cache. -/
theorem isDisabledE_disabled (o : Oracle) (env : Env) (cache : Option Bool)
    (hd : envSaysDisabled env = true) (hc : cache ≠ some false) :
    _IsDisabledE o env cache = .ok (true, some true) ∨
    (_IsDisabledE o env cache = .error .getBoolError ∧ cache = none) := by
  rcases cache with _ | b
  · cases henv : env.argcomplete
    · cases hb : o.getBoolFails
      · left
        have hp : (match env.disableUsageReportingPref with
                   | some b => b
                   | none => env.installationDefaultDisabled) = true := by
          simpa [envSaysDisabled, henv] using hd
        simp [_IsDisabledE, henv, hb, hp]
      · right; exact ⟨by simp [_IsDisabledE, henv, hb], rfl⟩
    · left; simp [_IsDisabledE, henv]
  · cases b
    · exact absurd rfl hc
    · left; rfl

/-- Under a disabling environment, `GetCollector` never constructs the
collector: it returns `None` (memoizing the decision), or the cold-cache
preference read raises and the state is unchanged. -/
theorem getCollectorE_disabled (o : Oracle) (env : Env) (s : GlobalState) (now : Int)
    (hd : envSaysDisabled env = true) (hc : s.disabledCache ≠ some false) :
    GetCollectorE o env s now = .ok (none, { s with disabledCache := some true }) ∨
    (GetCollectorE o env s now = .error (.getBoolError, s) ∧ s.disabledCache = none) := by
  rcases isDisabledE_disabled o env s.disabledCache hd hc with h | ⟨h, hn⟩
  · left; simp [GetCollectorE, h]
  · right; exact ⟨by simp [GetCollectorE, h], hn⟩

/-- One public call under a disabling environment preserves the
no-collector invariant and emits at most a diagnostic log. -/
theorem runOp_disabled (o : Oracle) (env : Env) (hd : envSaysDisabled env = true)
    (s : GlobalState) (hi : s.inst = none) (hc : s.disabledCache ≠ some false) (op : Op) :
    (runOp o env s op).1.inst = none ∧
    (runOp o env s op).1.disabledCache ≠ some false ∧
    ∀ e ∈ (runOp o env s op).2, e = Effect.logDebug := by
  cases op with
  | installs cid v n =>
    rcases getCollectorE_disabled o env s n hd hc with h | ⟨h, _⟩ <;>
      simp [runOp, Installs, InstallsInner, _CollectGAMetricAndSetTimerAction,
        CaptureAndLogException, Except.map, h, hi, hc]
  | commands cp v n =>
    rcases getCollectorE_disabled o env s n hd hc with h | ⟨h, _⟩ <;>
      simp [runOp, Commands, CommandsInner, _CollectGAMetricAndSetTimerAction,
        CaptureAndLogException, Except.map, h, hi, hc]
  | help cp m n =>
    rcases getCollectorE_disabled o env s n hd hc with h | ⟨h, _⟩ <;>
      simp [runOp, Help, HelpInner, _CollectGAMetricAndSetTimerAction,
        CaptureAndLogException, Except.map, h, hi, hc]
  | errOp cp exc n =>
    rcases getCollectorE_disabled o env s n hd hc with h | ⟨h, _⟩ <;>
      simp [runOp, Error, ErrorInner, _CollectGAMetricAndSetTimerAction,
        CaptureAndLogException, Except.map, h, hi, hc]
  | executions cn v n =>
    rcases getCollectorE_disabled o env s n hd hc with h | ⟨h, _⟩ <;>
      simp [runOp, Executions, ExecutionsInner, _CollectGAMetricAndSetTimerAction,
        CaptureAndLogException, Except.map, h, hi, hc]
  | started n st =>
    rcases getCollectorE_disabled o env s n hd hc with h | ⟨h, _⟩ <;>
      simp [runOp, Started, StartedInner, CaptureAndLogException, h, hi, hc]
  | loaded n =>
    rcases getCollectorE_disabled o env s n hd hc with h | ⟨h, _⟩ <;>
      simp [runOp, Loaded, LoadedInner, CaptureAndLogException, h, hi, hc]
  | ran n =>
    rcases getCollectorE_disabled o env s n hd hc with h | ⟨h, _⟩ <;>
      simp [runOp, Ran, RanInner, CaptureAndLogException, h, hi, hc]
  | shutdown n =>
    simp [runOp, Shutdown, ShutdownInner, GetCollectorIfExists, hi,
      CaptureAndLogException, hc]

/-- C3: with the disable policy saying "disabled", any sequence of
public recording calls and shutdown hooks leaves the process without a
collector — so no `PendingRequest` is ever appended to any queue — and
produces no serialization and no process launch (at most diagnostic
logs). -/
theorem C3_disabledProducesNothing (o : Oracle) (env : Env) (ops : List Op)
    (s : GlobalState) (hd : envSaysDisabled env = true)
    (hi : s.inst = none) (hc : s.disabledCache ≠ some false) :
    (runOps o env s ops).1.inst = none ∧
    ∀ e ∈ (runOps o env s ops).2, e = Effect.logDebug := by
  induction ops generalizing s with
  | nil => exact ⟨hi, by simp [runOps]⟩
  | cons op rest ih =>
    obtain ⟨h1, h2, h3⟩ := runOp_disabled o env hd s hi hc op
    obtain ⟨ih1, ih2⟩ := ih (runOp o env s op).1 h1 h2
    refine ⟨by simpa [runOps] using ih1, ?_⟩
    intro e he
    simp only [runOps, List.mem_append] at he
    rcases he with he | he
    · exact h3 e he
    · exact ih2 e he

/-- Witness for C3 under the shell-completion marker with a concrete
call sequence. -/
theorem C3_disabledProducesNothing_witness :
    (runOps noFail disabledEnv scenarioStart
      [Op.commands "a.b" (some "1") 5, Op.shutdown 9]).1.inst = none ∧
    ∀ e ∈ (runOps noFail disabledEnv scenarioStart
      [Op.commands "a.b" (some "1") 5, Op.shutdown 9]).2, e = Effect.logDebug :=
  C3_disabledProducesNothing noFail disabledEnv
    [Op.commands "a.b" (some "1") 5, Op.shutdown 9] scenarioStart (by decide) rfl (by decide)

/-- C1 counterexample: in the end-to-end scenario the latency report's
action name is `Commands,compute,instances,list` — `SetAction` rewrites
every dot, including the one separating the category from the command
path — so it is not the claimed `Commands.compute,instances,list`. -/
theorem C1_counterexample :
    scenarioBeforeFlush.timer.action = "Commands,compute,instances,list" ∧
    (scenarioBeforeFlush.timer.action == "Commands.compute,instances,list") = false := by
  exact ⟨by rfl, by rfl⟩

/-- C1 as amended: in the end-to-end scenario (gate enabled,
`Commands("compute.instances.list", "1.0")`, then the shutdown path
recording the `total` checkpoint and enqueueing the latency report), the
queue before the flush holds exactly two requests: the Commands-category
analytics hit with action `compute.instances.list` and label `1.0`, and
the latency-report hit whose action name is
`Commands,compute,instances,list` and whose `rt` parameter carries the
`total` checkpoint. -/
theorem C1_endToEndQueue :
    scenarioAfterCommands.inst = some scenarioCollector ∧
    scenarioBeforeFlush.metrics =
      [{ url := _GA_ENDPOINT, method := "POST",
         body := some (urlencode (_GAEventParams
           { category := _GA_COMMANDS_CATEGORY, action := "compute.instances.list",
             label := "1.0", value := 0 } ++ scenarioCollector.gaParams)),
         userAgent := scenarioCollector.userAgent },
       { url := _CSI_ENDPOINT ++ "?" ++ urlencode
           ([("action", "Commands,compute,instances,list"), ("rt", "total.2500")] ++
             scenarioCollector.csiParams),
         method := "GET", body := none, userAgent := scenarioCollector.userAgent }] ∧
    scenarioBeforeFlush.timer.action = "Commands,compute,instances,list" ∧
    scenarioBeforeFlush.timer.events = [{ name := _CSI_TOTAL_EVENT, time_millis := 3500 }] ∧
    scenarioBeforeFlush.timer.GetCSIParams =
      [("action", "Commands,compute,instances,list"), ("rt", "total.2500")] := by
  exact ⟨by rfl, by rfl, by rfl, by rfl, by rfl⟩
